import Mathlib

/-!
A shallow embedding of the OpenMOC plotting module (`openmoc/plotter.py`) and
proofs about its rasterization, colorization, validation and output-directory
handling.

Conventions of the embedding:
* Python floats are modelled as rationals (`ℚ`); a NumPy NaN entry produced by
  the transparent-zeros stage is modelled as `none : Option ℚ`.
* The external geometry collaborator (the C++ `Geometry` class, reached through
  SWIG) is modelled as a structure of the accessors the plotter uses.
* A call to `py_printf('ERROR', ...)` raises, so a code path that reaches it is
  modelled as returning `Except.error` with the message.
* NumPy's seeded in-place shuffle is an external collaborator; it is modelled
  as an explicit function argument `npShuffle : Nat → List Nat → List Nat`
  taking the seed passed to `numpy.random.seed` and the list being shuffled.
-/

namespace Plotter

/-- Module-level output subdirectory variable's initial value, plotter.py
line 40: `subdirectory = "/plots/"`. -/
def subdirectory_default : String := "/plots/"

/-- Modelled from the spec: `TINY_MOVE` is a small positive epsilon exported by
the core `openmoc` module (C++ code not under `src/`); per spec 4.1 it only
serves to shrink the bounding box slightly inward. Its exact value is
irrelevant to every claim below. -/
def TINY_MOVE : ℚ := 1 / 10000000000

/-- The external geometry collaborator, restricted to the accessors the
plotter uses. The field `locate` bundles the
`LocalCoords`/`findCellContainingCoords`/`getFSRId` sequence of plotter.py
lines 948-951. Modelled from the spec: the point-containment query of the C++
`Geometry` class is not under `src/`; per the spec's Region Locator contract
(4.2) it "must tolerate points that fall in gaps (outside all defined regions)
by returning NONE rather than raising", so `locate` returns `none` exactly
when plotter.py line 954 sees `np.isnan(fsr_id)`. -/
structure Geometry where
  numFSRs : Nat
  minX : ℚ
  maxX : ℚ
  minY : ℚ
  maxY : ℚ
  minZ : ℚ
  maxZ : ℚ
  locate : ℚ → ℚ → ℚ → Option Nat
  materialIds : List Nat
  fsrMaterial : Nat → Nat

/-- NumPy's `np.linspace(a, b, n)`: `n` evenly spaced samples from `a` to `b`
inclusive; `n = 1` gives `[a]`, `n = 0` gives `[]`. -/
def linspace (a b : ℚ) (n : Nat) : List ℚ :=
  if n ≤ 1 then List.replicate n a
  else (List.range n).map fun k => a + (b - a) * (k : ℚ) / ((n : ℚ) - 1)

/-- The dictionary returned by `_get_pixel_coords` (plotter.py lines 783-806):
the keys `x`, `y` and `bounds`. -/
structure PixelCoords where
  x : List ℚ
  y : List ℚ
  bounds : ℚ × ℚ × ℚ × ℚ

/-- `_get_pixel_coords` (plotter.py lines 783-806): bounds come from the
geometry's bounding box shrunk by `TINY_MOVE`, overridden by explicit `xlim`
and `ylim`; the coordinate sequences are `linspace` over those bounds. -/
def _get_pixel_coords (geometry : Geometry) (gridsize : Nat)
    (xlim ylim : Option (ℚ × ℚ)) : PixelCoords :=
  let bx : ℚ × ℚ :=
    match xlim with
    | none => (geometry.minX + TINY_MOVE, geometry.maxX - TINY_MOVE)
    | some l => l
  let by_ : ℚ × ℚ :=
    match ylim with
    | none => (geometry.minY + TINY_MOVE, geometry.maxY - TINY_MOVE)
    | some l => l
  { x := linspace bx.1 bx.2 gridsize
    y := linspace by_.1 by_.2 gridsize
    bounds := (bx.1, bx.2, by_.1, by_.2) }

/-- One iteration of the rasterization loop body of `plot_spatial_data`
(plotter.py lines 944-958), producing the value stored at `surface[j][i]`:
the sampled point takes `x = coords['y'][i]` and `y = coords['x'][j]`; a
failed containment query stores the sentinel `-1`, otherwise the value is
looked up in `fsrs_to_data`. -/
def surface_entry (geometry : Geometry) (fsrs_to_data : List ℚ)
    (coords : PixelCoords) (zcoord : ℚ) (i j : Nat) : ℚ :=
  let x := coords.y.getD i 0
  let y := coords.x.getD j 0
  match geometry.locate x y zcoord with
  | none => -1
  | some fsr_id => fsrs_to_data.getD fsr_id 0

/-- The full rasterization loop of `plot_spatial_data` (plotter.py lines
936-958): `surface` is a `gridsize × gridsize` array whose `[j][i]` entry is
`surface_entry i j`. -/
def spatial_surface (geometry : Geometry) (fsrs_to_data : List ℚ)
    (gridsize : Nat) (xlim ylim : Option (ℚ × ℚ)) (zcoord : ℚ) :
    List (List ℚ) :=
  let coords := _get_pixel_coords geometry gridsize xlim ylim
  (List.range gridsize).map fun j =>
    (List.range gridsize).map fun i =>
      surface_entry geometry fsrs_to_data coords zcoord i j

/-- NumPy's `np.max` over a one-dimensional view of the data; `np.max` of an
empty array raises in NumPy, here the empty case returns `0` (it is never
reached: the surface is `gridsize × gridsize` with `gridsize > 0`
validated). -/
def np_max : List ℚ → ℚ
  | [] => 0
  | v :: rest => max v (np_max rest)

/-- The normalization stage of `plot_spatial_data` (plotter.py lines 960-962):
`if norm: surface /= np.max(surface)`, an elementwise division of the whole
array by its pre-normalization maximum. -/
def surface_normalize (norm : Bool) (surface : List (List ℚ)) :
    List (List ℚ) :=
  if norm then
    surface.map (List.map fun v => v / np_max surface.flatten)
  else surface

/-- The transparent-zeros stage of `plot_spatial_data` (plotter.py lines
964-967): exact-zero entries are replaced by NaN (modelled `none`); every
other entry is kept (modelled `some`). -/
def surface_transparent_zeros (transparent_zeros : Bool)
    (surface : List (List ℚ)) : List (List (Option ℚ)) :=
  surface.map (List.map fun v =>
    if transparent_zeros ∧ v = 0 then none else some v)

/-- `plot_spatial_data` (plotter.py lines 882-991) up to the hand-off to
Matplotlib: the pre-flight validations in source order (the `Geometry`,
`np.ndarray`, string and `is_integer` type checks are enforced by the types of
this embedding; `gridsize` is an integer so that the source's
`gridsize <= 0` check is representable), then the rasterization loop and the
normalization / transparent-zeros stages. The second component counts the
containment queries performed (one per grid sample), so an error result with
count `0` is an error raised before any rasterization work. -/
def plot_spatial_data (geometry : Geometry) (fsrs_to_data : List ℚ)
    (norm transparent_zeros : Bool) (zcoord : Option ℚ) (gridsize : ℤ)
    (xlim ylim : Option (ℚ × ℚ)) :
    Except String (List (List (Option ℚ))) × Nat :=
  if fsrs_to_data.length ≠ geometry.numFSRs then
    (Except.error "fsrs_to_data length differs from the number of FSRs", 0)
  else if gridsize ≤ 0 then
    (Except.error "non-positive gridsize", 0)
  else
    let z := zcoord.getD 0
    if z < geometry.minZ ∨ geometry.maxZ < z then
      (Except.error "z-coord outside the geometry z-bounds", 0)
    else
      let n := gridsize.toNat
      let surface := spatial_surface geometry fsrs_to_data n xlim ylim z
      (Except.ok
        (surface_transparent_zeros transparent_zeros
          (surface_normalize norm surface)), n * n)

/-- NumPy fancy-index assignment `base[idxs] = vals` on a one-dimensional
integer array: positions are written left to right, later writes win (NumPy's
documented behavior for repeated indices). -/
def fancy_index_assign (base : List Nat) (idxs vals : List Nat) : List Nat :=
  (idxs.zip vals).foldl (fun acc p => acc.set p.1 p.2) base

/-- `_colorize` (plotter.py lines 833-849). `npShuffle` models the external
`numpy.random.seed` / `np.random.shuffle` pair (seed, list in) ↦ (list out).
The source's `seed` parameter defaults to 1 and is documented as "the random
number seed used to generate colors", but line 842 calls
`numpy.random.seed(1)` with the literal 1, so the shuffle below is invoked
with seed `1`, not with `seed`. -/
def _colorize (npShuffle : Nat → List Nat → List Nat) (data : List Nat)
    (num_colors : Nat) (seed : Nat) : List Nat :=
  let all_ids := List.range num_colors
  let id_colors := List.range num_colors
  let id_colors := npShuffle 1 id_colors
  let ids_to_colors := fancy_index_assign (List.range num_colors)
    all_ids id_colors
  let _ := seed
  data.map fun d => ids_to_colors.getD d 0

/-- The id-to-color lookup table `ids_to_colors` that `_colorize` builds
(plotter.py lines 836-847) before applying it with `take`. -/
def ids_to_colors (npShuffle : Nat → List Nat → List Nat)
    (num_colors : Nat) : List Nat :=
  fancy_index_assign (List.range num_colors) (List.range num_colors)
    (npShuffle 1 (List.range num_colors))

/-- The group-bounds branch of `plot_energy_fluxes` validation (plotter.py
lines 560-577), for `group_bounds` supplied as a sequence: first the strict
monotonicity check (`all(low < up for low, up in zip(group_bounds,
group_bounds[1:]))`), then the count check against `num_groups + 1`, then the
per-bound loop erroring on a negative bound (the `is_integer`/`is_float` type
check of each bound is enforced by `ℚ` here). `Except.error` models the
raising `py_printf('ERROR', ...)` call. -/
def check_group_bounds (group_bounds : List ℚ) (num_groups : Nat) :
    Except String Unit :=
  if ¬ ((group_bounds.zip group_bounds.tail).all fun p =>
      decide (p.1 < p.2)) then
    Except.error "group bounds are not monotonically increasing"
  else if group_bounds.length ≠ num_groups + 1 then
    Except.error "wrong number of group bounds"
  else if group_bounds.any fun b => decide (b < 0) then
    Except.error "negative group bound"
  else
    Except.ok ()

/-- Python's `str.zfill`: left-pad with `'0'` to the requested width (the
sign-aware case does not arise: eigenmode numbers are positive). -/
def zfill (s : String) (width : Nat) : String :=
  if width ≤ s.length then s
  else String.mk (List.replicate (width - s.length) '0') ++ s

/-- The mode-specific subdirectory string set inside the sweep loop of
`plot_eigenmode_fluxes` (plotter.py lines 760-762):
`'/plots/eig-{0}-flux/'.format(str(mode).zfill(num_digits))`. -/
def eig_subdirectory (mode num_digits : Nat) : String :=
  "/plots/eig-" ++ zfill (toString mode) num_digits ++ "-flux/"

/-- The sweep loop of `plot_eigenmode_fluxes` (plotter.py lines 744-765),
tracking only the module-level `subdirectory` variable. `plotFails m` models
whether mode `m`'s `plot_spatial_fluxes` call raises (its validations call
the raising `py_printf('ERROR', ...)`). The result is the value of
`subdirectory` when control leaves the loop, paired with `true` when the loop
ran to completion and `false` when an exception escaped mid-loop; there is no
`try`/`finally` in the source, so a raise leaves the loop immediately with
the subdirectory set for the failing mode. -/
def eigenmode_sweep_loop (plotFails : Nat → Bool) (num_digits : Nat) :
    List Nat → String → String × Bool
  | [], subdir => (subdir, true)
  | mode :: rest, _ =>
    let subdir := eig_subdirectory mode num_digits
    if plotFails mode then (subdir, false)
    else eigenmode_sweep_loop plotFails num_digits rest subdir

/-- `plot_eigenmode_fluxes` (plotter.py lines 698-768) restricted to its
effect on the module-level `subdirectory` variable: run the sweep loop; if it
completes, line 768 resets `subdirectory = '/plots/'`; if a mode's plot
raises, the reset statement is never reached. `num_digits` is
`len(str(max(eigenmodes)))` (line 761; Python's `max` of a nonempty list,
modelled as a fold from 0 — the eigenmodes list is validated nonempty in the
source). -/
def plot_eigenmode_fluxes_subdir (plotFails : Nat → Bool)
    (eigenmodes : List Nat) : String × Bool :=
  let num_digits := (toString (eigenmodes.foldl max 0)).length
  match eigenmode_sweep_loop plotFails num_digits eigenmodes
      subdirectory_default with
  | (subdir, false) => (subdir, false)
  | (_, true) => (subdirectory_default, true)

/-- The expression `np.where(material_ids == material_id)[0]` of plotter.py
line 238. `material_id` is an `np.int64` scalar — it is drawn by iterating
the int64 array `fsrs_to_materials` — so the comparison with the Python list
`material_ids` dispatches to NumPy's reflected elementwise `==`, producing a
boolean array over the list; `np.where(...)[0]` is then the ascending list
of indices at which the comparison holds: index 0 when the head matches,
plus the successors of the matching indices of the tail. -/
def npWhereEq : List Nat → Nat → List Nat
  | [], _ => []
  | v :: rest, x =>
    (if v == x then [0] else []) ++ (npWhereEq rest x).map Nat.succ

/-- Assignment of a NumPy index array into one element of an integer array
(`fsrs_to_materials[i] = ...`, plotter.py line 238): a size-1 array is
unwrapped to its scalar; any other size raises `ValueError: setting an array
element with a sequence`. -/
def assign_element_from_array (vals : List Nat) : Except String Nat :=
  match vals with
  | [v] => Except.ok v
  | _ => Except.error "ValueError: setting an array element with a sequence"

/-- The color-index loop of `plot_materials` (plotter.py lines 237-238):
`for i, material_id in enumerate(fsrs_to_materials): fsrs_to_materials[i] =
np.where(material_ids == material_id)[0]`, raising out of the loop as soon
as an element assignment raises (which happens only when the where-result is
not of size 1). -/
def plot_materials_color_loop (material_ids : List Nat) :
    List Nat → Except String (List Nat)
  | [] => Except.ok []
  | mid :: rest =>
    match assign_element_from_array (npWhereEq material_ids mid) with
    | Except.error e => Except.error e
    | Except.ok c =>
      match plot_materials_color_loop material_ids rest with
      | Except.error e => Except.error e
      | Except.ok cs => Except.ok (c :: cs)

/-- The FSR-to-color computation of `plot_materials` (plotter.py lines
224-238): build `fsrs_to_materials` (each FSR's cell's fill-material id,
lines 226-229), shuffle the material-id list with the seed-1 NumPy shuffle
(`numpy.random.seed(1); numpy.random.shuffle(material_ids)`, lines 235-236,
modelled by `npShuffle` as in `_colorize`), then run the color-index loop
against the shuffled list. -/
def plot_materials_fsr_colors (npShuffle : Nat → List Nat → List Nat)
    (geometry : Geometry) : Except String (List Nat) :=
  let fsrs_to_materials :=
    (List.range geometry.numFSRs).map geometry.fsrMaterial
  let material_ids := npShuffle 1 geometry.materialIds
  plot_materials_color_loop material_ids fsrs_to_materials

/-! ### Helper lemmas -/

lemma getD_map_range {α : Type} (f : Nat → α) (d : α) {n j : Nat} (h : j < n) :
    ((List.range n).map f).getD j d = f j := by
  rw [List.getD_eq_getElem?_getD]
  simp [List.getElem?_map, List.getElem?_range, h]

lemma foldl_set_shift (idxs vs : List Nat) (a : Nat) (bs : List Nat) :
    ((idxs.map Nat.succ).zip vs).foldl (fun acc p => acc.set p.1 p.2)
        (a :: bs) =
      a :: (idxs.zip vs).foldl (fun acc p => acc.set p.1 p.2) bs := by
  induction idxs generalizing vs bs with
  | nil => simp
  | cons i is ih =>
    cases vs with
    | nil => simp
    | cons v vs2 => simp [ih]

lemma fancy_index_assign_full (vals : List Nat) (base : List Nat)
    (h : base.length = vals.length) :
    fancy_index_assign base (List.range vals.length) vals = vals := by
  induction vals generalizing base with
  | nil =>
    cases base with
    | nil => rfl
    | cons b bs => simp at h
  | cons v vs ih =>
    cases base with
    | nil => simp at h
    | cons b bs =>
      have hlen : bs.length = vs.length := by simpa using h
      have ihb := ih bs hlen
      simp only [fancy_index_assign, List.length_cons,
        List.range_succ_eq_map, List.zip_cons_cons, List.foldl_cons,
        List.set_cons_zero] at *
      rw [foldl_set_shift]
      simpa using ihb

lemma ids_to_colors_eq (npShuffle : Nat → List Nat → List Nat) (N : Nat)
    (h : (npShuffle 1 (List.range N)).length = N) :
    ids_to_colors npShuffle N = npShuffle 1 (List.range N) := by
  have h2 := fancy_index_assign_full (npShuffle 1 (List.range N))
    (List.range N) (by simp [h])
  rw [h] at h2
  rw [ids_to_colors]
  exact h2

lemma np_max_map_div (m : ℚ) (hm : 0 ≤ m) (l : List ℚ) :
    np_max (l.map fun v => v / m) = np_max l / m := by
  induction l with
  | nil => simp [np_max]
  | cons x xs ih =>
    simp only [List.map_cons, np_max, ih]
    exact max_div_div_right hm x (np_max xs)

lemma npWhereEq_of_not_mem (l : List Nat) (x : Nat) (hx : x ∉ l) :
    npWhereEq l x = [] := by
  induction l with
  | nil => rfl
  | cons v rest ih =>
    have h1 : x ≠ v ∧ x ∉ rest := by
      simpa [List.mem_cons, not_or] using hx
    rw [npWhereEq, ih h1.2]
    simp [Ne.symm h1.1]

lemma npWhereEq_nodup (l : List Nat) (x : Nat) (hnd : l.Nodup)
    (hx : x ∈ l) :
    npWhereEq l x = [l.indexOf x] := by
  induction l with
  | nil => cases hx
  | cons v rest ih =>
    by_cases hvx : v = x
    · subst hvx
      have hvrest : v ∉ rest := (List.nodup_cons.mp hnd).1
      rw [npWhereEq, npWhereEq_of_not_mem rest v hvrest]
      simp [List.indexOf_cons_self]
    · have hxrest : x ∈ rest := by
        rcases List.mem_cons.mp hx with h | h
        · exact absurd h.symm hvx
        · exact h
      rw [npWhereEq, ih (List.nodup_cons.mp hnd).2 hxrest]
      rw [List.indexOf_cons_ne rest hvx]
      simp [hvx]

lemma plot_materials_color_loop_ok (material_ids : List Nat)
    (hnd : material_ids.Nodup) (mids : List Nat)
    (hmem : ∀ m ∈ mids, m ∈ material_ids) :
    plot_materials_color_loop material_ids mids =
      Except.ok (mids.map fun m => material_ids.indexOf m) := by
  induction mids with
  | nil => rfl
  | cons m rest ih =>
    rw [plot_materials_color_loop,
      npWhereEq_nodup material_ids m hnd (hmem m (List.mem_cons_self m rest)),
      ih fun x hx => hmem x (List.mem_cons_of_mem m hx)]
    rfl

lemma all_zip_lt_iff_chain (l : List ℚ) :
    ((l.zip l.tail).all fun p => decide (p.1 < p.2)) = true ↔
      List.Chain' (· < ·) l := by
  induction l with
  | nil => simp
  | cons a t ih =>
    cases t with
    | nil => simp
    | cons b t2 =>
      have hz : ((a :: b :: t2).zip (a :: b :: t2).tail) =
          (a, b) :: ((b :: t2).zip (b :: t2).tail) := by
        simp [List.zip_cons_cons]
      rw [hz, List.all_cons, Bool.and_eq_true, decide_eq_true_eq,
        List.chain'_cons, ih]

/-! ### Claim theorems -/

/-- Claim C3: the identity colorizer `_colorize` always seeds the random
number generator with the literal 1 (plotter.py line 842), ignoring its
`seed` parameter entirely, so its output is the same for every caller-supplied
seed. This refutes the claim that the shuffle is seeded with the supplied
seed `s` and that the permutation is a function of the seed argument. -/
theorem colorize_ignores_seed (npShuffle : Nat → List Nat → List Nat)
    (data : List Nat) (num_colors : Nat) (seed1 seed2 : Nat) :
    _colorize npShuffle data num_colors seed1 =
      _colorize npShuffle data num_colors seed2 := rfl

/-- Claim C4: whenever the external NumPy shuffle returns a permutation of
its input (which `np.random.shuffle` always does), the id-to-color table that
`_colorize` constructs is a bijection on `[0, N)`, and two invocations of
`_colorize` with the same data array and the same `N` return identical
outputs (the embedding is pure because `numpy.random.seed` fixes the
generator state before each shuffle). -/
theorem colorize_color_map_bijective (npShuffle : Nat → List Nat → List Nat)
    (N : Nat) (h : (npShuffle 1 (List.range N)).Perm (List.range N)) :
    Set.BijOn (fun id => (ids_to_colors npShuffle N).getD id 0)
      (Set.Iio N) (Set.Iio N) ∧
    ∀ (data : List Nat) (s1 s2 : Nat),
      _colorize npShuffle data N s1 = _colorize npShuffle data N s2 := by
  refine ⟨?_, fun _ _ _ => rfl⟩
  have hlen : (npShuffle 1 (List.range N)).length = N := by
    simpa using h.length_eq
  have heq := ids_to_colors_eq npShuffle N hlen
  have hperm : (ids_to_colors npShuffle N).Perm (List.range N) := by
    rw [heq]; exact h
  have hlenl : (ids_to_colors npShuffle N).length = N := by
    simpa using hperm.length_eq
  have hnodup : (ids_to_colors npShuffle N).Nodup :=
    hperm.nodup_iff.mpr (List.nodup_range N)
  have hmem : ∀ v, v ∈ ids_to_colors npShuffle N ↔ v < N := by
    intro v
    rw [hperm.mem_iff, List.mem_range]
  have hgetD : ∀ i (hi : i < N),
      (ids_to_colors npShuffle N).getD i 0 =
        (ids_to_colors npShuffle N).get ⟨i, by rw [hlenl]; exact hi⟩ := by
    intro i hi
    rw [List.getD_eq_getElem _ _ (by rw [hlenl]; exact hi)]
    simp [List.get_eq_getElem]
  refine ⟨?_, ?_, ?_⟩
  · intro i hi
    simp only [Set.mem_Iio] at hi ⊢
    rw [hgetD i hi, ← hmem]
    exact List.get_mem _ _ _
  · intro i hi j hj hij
    simp only [Set.mem_Iio] at hi hj
    have hij2 : (ids_to_colors npShuffle N).getD i 0 =
        (ids_to_colors npShuffle N).getD j 0 := hij
    rw [hgetD i hi, hgetD j hj] at hij2
    have := List.nodup_iff_injective_get.mp hnodup hij2
    simpa using this
  · intro v hv
    simp only [Set.mem_Iio] at hv
    obtain ⟨⟨i, hilen⟩, hi⟩ := List.mem_iff_get.mp ((hmem v).mpr hv)
    have hiN : i < N := by rw [hlenl] at hilen; exact hilen
    refine ⟨i, Set.mem_Iio.mpr hiN, ?_⟩
    show (ids_to_colors npShuffle N).getD i 0 = v
    rw [hgetD i hiN]
    exact hi

/-- Witness for C4 at seed-independent shuffle `reverse` and `N = 3`. -/
theorem colorize_color_map_bijective_witness :
    (((fun _ l => l.reverse : Nat → List Nat → List Nat) 1
        (List.range 3)).Perm (List.range 3)) ∧
    (Set.BijOn
        (fun id => (ids_to_colors (fun _ l => l.reverse) 3).getD id 0)
        (Set.Iio 3) (Set.Iio 3) ∧
      ∀ (data : List Nat) (s1 s2 : Nat),
        _colorize (fun _ l => l.reverse) data 3 s1 =
          _colorize (fun _ l => l.reverse) data 3 s2) :=
  ⟨by decide,
    colorize_color_map_bijective (fun _ l => l.reverse) 3 (by decide)⟩

/-- Claim C6: when normalization is requested and the pre-normalization
surface has a positive maximum, the normalized surface has maximum exactly
1. -/
theorem surface_normalize_max_eq_one (surface : List (List ℚ))
    (h : 0 < np_max surface.flatten) :
    np_max (surface_normalize true surface).flatten = 1 := by
  have hflat : (surface_normalize true surface).flatten =
      surface.flatten.map fun v => v / np_max surface.flatten := by
    simp [surface_normalize, List.map_flatten]
  rw [hflat, np_max_map_div _ h.le]
  exact div_self (ne_of_gt h)

/-- Witness for C6 at the surface `[[2, 1]]`. -/
theorem surface_normalize_max_eq_one_witness :
    0 < np_max ([[2, 1]] : List (List ℚ)).flatten ∧
      np_max (surface_normalize true ([[2, 1]] : List (List ℚ))).flatten
        = 1 :=
  ⟨by norm_num [np_max, lt_max_iff],
    surface_normalize_max_eq_one [[2, 1]]
      (by norm_num [np_max, lt_max_iff])⟩

/-- Claim C8: the group-bounds validation of `plot_energy_fluxes` accepts a
supplied bounds sequence exactly when it is strictly increasing, has length
equal to the number of energy groups plus one, and has no negative bound;
each violation is reported as an error. -/
theorem check_group_bounds_ok_iff (group_bounds : List ℚ)
    (num_groups : Nat) :
    check_group_bounds group_bounds num_groups = Except.ok () ↔
      (List.Chain' (· < ·) group_bounds ∧
        group_bounds.length = num_groups + 1 ∧
        ∀ b ∈ group_bounds, 0 ≤ b) := by
  by_cases hA : ((group_bounds.zip group_bounds.tail).all
      fun p => decide (p.1 < p.2)) = true
  · by_cases hB : group_bounds.length = num_groups + 1
    · by_cases hC : (group_bounds.any fun b => decide (b < 0)) = true
      · rw [check_group_bounds, if_neg (not_not_intro hA),
          if_neg (not_not_intro hB), if_pos hC]
        constructor
        · intro hcontra; exact Except.noConfusion hcontra
        · intro hr
          obtain ⟨b, hb, hbneg⟩ := List.any_eq_true.mp hC
          rw [decide_eq_true_eq] at hbneg
          exact absurd (hr.2.2 b hb) (not_le.mpr hbneg)
      · rw [check_group_bounds, if_neg (not_not_intro hA),
          if_neg (not_not_intro hB), if_neg hC]
        constructor
        · intro _
          refine ⟨(all_zip_lt_iff_chain group_bounds).mp hA, hB, ?_⟩
          intro b hb
          by_contra hneg
          exact hC (List.any_eq_true.mpr
            ⟨b, hb, by simpa using not_le.mp hneg⟩)
        · intro _; rfl
    · rw [check_group_bounds, if_neg (not_not_intro hA), if_pos hB]
      constructor
      · intro hcontra; exact Except.noConfusion hcontra
      · intro hr; exact (hB hr.2.1).elim
  · rw [check_group_bounds, if_pos hA]
    constructor
    · intro hcontra; exact Except.noConfusion hcontra
    · intro hr
      exact (hA ((all_zip_lt_iff_chain group_bounds).mpr hr.1)).elim

/-- A small concrete geometry used to instantiate theorems: one FSR, one
material with id 5, and a containment query that finds no region anywhere
(every sample point falls in a gap). -/
def gapGeometry : Geometry :=
  ⟨1, 0, 1, 0, 1, -1, 1, fun _ _ _ => none, [5], fun _ => 5⟩

/-- Claim C1: a grid sample whose containment query finds no containing
region stores the -1 sentinel at `surface[j][i]` (the lookup cannot raise:
the data-array indexing branch is not taken), and the entry does not depend
on the region data array at all. -/
theorem spatial_surface_outside_sentinel (geometry : Geometry)
    (fsrs_to_data : List ℚ) (gridsize : Nat) (xlim ylim : Option (ℚ × ℚ))
    (zcoord : ℚ) (i j : Nat) (hi : i < gridsize) (hj : j < gridsize)
    (hnone : geometry.locate
        ((_get_pixel_coords geometry gridsize xlim ylim).y.getD i 0)
        ((_get_pixel_coords geometry gridsize xlim ylim).x.getD j 0)
        zcoord = none) :
    ((spatial_surface geometry fsrs_to_data gridsize xlim ylim
        zcoord).getD j []).getD i 0 = -1 ∧
    ∀ data2 : List ℚ,
      ((spatial_surface geometry data2 gridsize xlim ylim zcoord).getD j
        []).getD i 0 = -1 := by
  have key : ∀ data : List ℚ,
      ((spatial_surface geometry data gridsize xlim ylim zcoord).getD j
        []).getD i 0 = -1 := by
    intro data
    simp only [spatial_surface]
    rw [getD_map_range _ _ hj, getD_map_range _ _ hi]
    simp only [surface_entry]
    rw [hnone]
  exact ⟨key fsrs_to_data, key⟩

/-- Witness for C1 on `gapGeometry` with an explicit window. -/
theorem spatial_surface_outside_sentinel_witness :
    ((0 : Nat) < 2 ∧ (1 : Nat) < 2 ∧ gapGeometry.locate
        ((_get_pixel_coords gapGeometry 2 (some (0, 1))
          (some (0, 1))).y.getD 0 0)
        ((_get_pixel_coords gapGeometry 2 (some (0, 1))
          (some (0, 1))).x.getD 1 0) 0 = none) ∧
    (((spatial_surface gapGeometry [3] 2 (some (0, 1)) (some (0, 1))
        0).getD 1 []).getD 0 0 = -1 ∧
      ∀ data2 : List ℚ,
        ((spatial_surface gapGeometry data2 2 (some (0, 1)) (some (0, 1))
          0).getD 1 []).getD 0 0 = -1) :=
  ⟨⟨by norm_num, by norm_num, rfl⟩,
    spatial_surface_outside_sentinel gapGeometry [3] 2 (some (0, 1))
      (some (0, 1)) 0 0 1 (by norm_num) (by norm_num) rfl⟩

/-- Claim C10: the rasterization loop samples the point whose x-coordinate
is the y-coordinate sequence at position `i` and whose y-coordinate is the
x-coordinate sequence at position `j`, and stores the resulting value at
`surface[j][i]`. -/
theorem spatial_surface_axis_swap (geometry : Geometry)
    (fsrs_to_data : List ℚ) (gridsize : Nat) (xlim ylim : Option (ℚ × ℚ))
    (zcoord : ℚ) (i j : Nat) (hi : i < gridsize) (hj : j < gridsize) :
    ((spatial_surface geometry fsrs_to_data gridsize xlim ylim
        zcoord).getD j []).getD i 0 =
      (match geometry.locate
          ((_get_pixel_coords geometry gridsize xlim ylim).y.getD i 0)
          ((_get_pixel_coords geometry gridsize xlim ylim).x.getD j 0)
          zcoord with
        | none => -1
        | some fsr_id => fsrs_to_data.getD fsr_id 0) := by
  simp only [spatial_surface]
  rw [getD_map_range _ _ hj, getD_map_range _ _ hi]
  rfl

/-- Witness for C10 on `gapGeometry` at grid indices i = 0, j = 1. -/
theorem spatial_surface_axis_swap_witness :
    (0 : Nat) < 2 ∧ (1 : Nat) < 2 ∧
    ((spatial_surface gapGeometry [3] 2 (some (0, 1)) (some (0, 1))
        0).getD 1 []).getD 0 0 =
      (match gapGeometry.locate
          ((_get_pixel_coords gapGeometry 2 (some (0, 1))
            (some (0, 1))).y.getD 0 0)
          ((_get_pixel_coords gapGeometry 2 (some (0, 1))
            (some (0, 1))).x.getD 1 0) 0 with
        | none => -1
        | some fsr_id => ([3] : List ℚ).getD fsr_id 0) :=
  ⟨by norm_num, by norm_num,
    spatial_surface_axis_swap gapGeometry [3] 2 (some (0, 1)) (some (0, 1))
      0 0 1 (by norm_num) (by norm_num)⟩

/-- Counterexample to claim C2: with normalization requested, the scalar
colorization stage divides the -1 sentinel by the field maximum like any
other entry; on the field `[[-1, 2]]` the sentinel entry comes out of the
stage as `-1/2`, not `-1`. -/
theorem sentinel_rescaled_by_norm :
    (([[-1, 2]] : List (List ℚ)).getD 0 []).getD 0 0 = -1 ∧
    ((surface_transparent_zeros true
        (surface_normalize true [[-1, 2]])).getD 0 []).getD 0 none =
      some (-(1 / 2)) ∧
    some (-(1 / 2) : ℚ) ≠ some (-1 : ℚ) := by
  refine ⟨rfl, ?_, by norm_num⟩
  norm_num [surface_normalize, surface_transparent_zeros, np_max, max_def]

/-- Claim C2 amended: with normalization off, every -1 sentinel entry is
left exactly -1 by the scalar colorization stage, whether or not transparent
zeros are requested (the sentinel is nonzero, so the transparent-zeros
replacement never touches it); with normalization on the sentinel is divided
by the field maximum like every other entry. -/
theorem sentinel_preserved_without_norm (transparent_zeros : Bool)
    (surface : List (List ℚ)) (i j : Nat)
    (hj : j < surface.length) (hi : i < (surface.getD j []).length)
    (hsent : (surface.getD j []).getD i 0 = -1) :
    ((surface_transparent_zeros transparent_zeros
        (surface_normalize false surface)).getD j []).getD i none =
      some (-1) := by
  have hnorm : surface_normalize false surface = surface := by
    simp [surface_normalize]
  rw [hnorm, surface_transparent_zeros]
  have hrow : surface.getD j [] = surface[j] := List.getD_eq_getElem _ _ hj
  have hi2 : i < surface[j].length := by rwa [hrow] at hi
  have hv : surface[j][i] = -1 := by
    rw [hrow] at hsent
    rwa [List.getD_eq_getElem _ _ hi2] at hsent
  have hj3 : j < (surface.map (List.map fun v =>
      if transparent_zeros ∧ v = 0 then none else some v)).length := by
    simpa using hj
  rw [List.getD_eq_getElem _ _ hj3, List.getElem_map]
  have hi3 : i < (surface[j].map fun v =>
      if transparent_zeros ∧ v = 0 then none else some v).length := by
    simpa using hi2
  rw [List.getD_eq_getElem _ _ hi3, List.getElem_map, hv]
  simp

/-- Witness for the amended C2 on the field `[[-1, 2]]`. -/
theorem sentinel_preserved_without_norm_witness :
    ((0 : Nat) < ([[-1, 2]] : List (List ℚ)).length ∧
      (0 : Nat) < (([[-1, 2]] : List (List ℚ)).getD 0 []).length ∧
      (([[-1, 2]] : List (List ℚ)).getD 0 []).getD 0 0 = -1) ∧
    ((surface_transparent_zeros true
        (surface_normalize false [[-1, 2]])).getD 0 []).getD 0 none =
      some (-1) :=
  ⟨⟨by norm_num, by norm_num, rfl⟩,
    sentinel_preserved_without_norm true [[-1, 2]] 0 0 (by norm_num)
      (by norm_num) rfl⟩

/-- Claim C7: when the data array's length differs from the geometry's FSR
count, `plot_spatial_data` reports the length-mismatch error during
pre-flight validation, with zero containment queries performed — before any
grid sampling of the rasterization loop. -/
theorem plot_spatial_data_length_mismatch_fails_fast (geometry : Geometry)
    (fsrs_to_data : List ℚ) (norm transparent_zeros : Bool)
    (zcoord : Option ℚ) (gridsize : ℤ) (xlim ylim : Option (ℚ × ℚ))
    (h : fsrs_to_data.length ≠ geometry.numFSRs) :
    plot_spatial_data geometry fsrs_to_data norm transparent_zeros zcoord
        gridsize xlim ylim =
      (Except.error "fsrs_to_data length differs from the number of FSRs",
        0) := by
  rw [plot_spatial_data, if_pos h]

/-- Witness for C7: an empty data array against a one-FSR geometry. -/
theorem plot_spatial_data_length_mismatch_witness :
    (([] : List ℚ).length ≠ gapGeometry.numFSRs) ∧
    plot_spatial_data gapGeometry [] false false none 2 none none =
      (Except.error "fsrs_to_data length differs from the number of FSRs",
        0) :=
  ⟨by decide,
    plot_spatial_data_length_mismatch_fails_fast gapGeometry [] false false
      none 2 none none (by decide)⟩

/-- Counterexample to claim C5: on the sweep `[1, 2]` where mode 2's spatial
flux plotting raises, `plot_eigenmode_fluxes` leaves the module-level
subdirectory variable at the mode-2 value `"/plots/eig-2-flux/"`; the reset
statement after the loop is never reached (there is no save/restore), so the
subdirectory is not restored to its default `"/plots/"`. -/
theorem eigenmode_subdir_leak :
    plot_eigenmode_fluxes_subdir (fun m => m == 2) [1, 2] =
      ("/plots/eig-2-flux/", false) ∧
    ("/plots/eig-2-flux/" : String) ≠ "/plots/" := by
  exact ⟨by decide, by decide⟩

/-- Claim C5 amended: the module-level subdirectory equals its default
`"/plots/"` after a sweep in which no mode's plot fails; when a mode's plot
raises mid-sweep, the reset is skipped and the subdirectory keeps that
mode's value. -/
theorem eigenmode_subdir_restored_on_success (plotFails : Nat → Bool)
    (eigenmodes : List Nat)
    (h : ∀ m ∈ eigenmodes, plotFails m = false) :
    plot_eigenmode_fluxes_subdir plotFails eigenmodes =
      (subdirectory_default, true) := by
  have key : ∀ (modes : List Nat) (nd : Nat) (subdir : String),
      (∀ m ∈ modes, plotFails m = false) →
      (eigenmode_sweep_loop plotFails nd modes subdir).2 = true := by
    intro modes
    induction modes with
    | nil => intro nd subdir _; rfl
    | cons m rest ih =>
      intro nd subdir hall
      have hm : plotFails m = false := hall m (List.mem_cons_self m rest)
      simp only [eigenmode_sweep_loop, hm, Bool.false_eq_true, if_false]
      exact ih nd _ fun x hx => hall x (List.mem_cons_of_mem m hx)
  simp only [plot_eigenmode_fluxes_subdir]
  rcases hres : eigenmode_sweep_loop plotFails
      ((toString (eigenmodes.foldl max 0)).length) eigenmodes
      subdirectory_default with ⟨s, b⟩
  have hb : b = true := by
    have h2 := key eigenmodes ((toString (eigenmodes.foldl max 0)).length)
      subdirectory_default h
    rwa [hres] at h2
  subst hb
  rfl

/-- Witness for the amended C5: a two-mode sweep with no failures. -/
theorem eigenmode_subdir_restored_on_success_witness :
    (∀ m ∈ ([1, 2] : List Nat), (fun _ => false : Nat → Bool) m = false) ∧
    plot_eigenmode_fluxes_subdir (fun _ => false) [1, 2] =
      (subdirectory_default, true) :=
  ⟨by decide, eigenmode_subdir_restored_on_success (fun _ => false) [1, 2]
    (by decide)⟩

/-- Claim C9: `plot_materials` computes, for every flat source region, the
index of that region's material id within the seed-1 shuffled list of all
material ids — an identity color index in `[0, num_materials)` — and this is
the array handed to `plot_spatial_data` (plotter.py line 244). The
hypotheses are facts about the external geometry collaborator: the shuffle
permutes its input (`np.random.shuffle` always does), the material ids are
distinct (they are the keys of the `getAllMaterials` dictionary), and every
region's fill-material id is one of them. The Geometry type check of line
211 is enforced by the embedding's types. -/
theorem plot_materials_computes_shuffled_index
    (npShuffle : Nat → List Nat → List Nat) (geometry : Geometry)
    (hperm : (npShuffle 1 geometry.materialIds).Perm geometry.materialIds)
    (hnodup : geometry.materialIds.Nodup)
    (hmem : ∀ fsr, fsr < geometry.numFSRs →
      geometry.fsrMaterial fsr ∈ geometry.materialIds) :
    plot_materials_fsr_colors npShuffle geometry =
      Except.ok ((List.range geometry.numFSRs).map fun fsr =>
        (npShuffle 1 geometry.materialIds).indexOf
          (geometry.fsrMaterial fsr)) ∧
    ∀ fsr, fsr < geometry.numFSRs →
      (npShuffle 1 geometry.materialIds).indexOf
          (geometry.fsrMaterial fsr) <
        geometry.materialIds.length := by
  have hnd2 : (npShuffle 1 geometry.materialIds).Nodup :=
    hperm.nodup_iff.mpr hnodup
  constructor
  · have hmem2 : ∀ m ∈ (List.range geometry.numFSRs).map
        geometry.fsrMaterial, m ∈ npShuffle 1 geometry.materialIds := by
      intro m hm
      obtain ⟨fsr, hfsr, rfl⟩ := List.mem_map.mp hm
      exact hperm.mem_iff.mpr (hmem fsr (List.mem_range.mp hfsr))
    rw [plot_materials_fsr_colors,
      plot_materials_color_loop_ok _ hnd2 _ hmem2, List.map_map]
    rfl
  · intro fsr hfsr
    have hin : geometry.fsrMaterial fsr ∈ npShuffle 1 geometry.materialIds :=
      hperm.mem_iff.mpr (hmem fsr hfsr)
    have hlt := List.indexOf_lt_length.mpr hin
    rwa [hperm.length_eq] at hlt

/-- Witness for C9 on the one-FSR `gapGeometry` with the shuffle `reverse`. -/
theorem plot_materials_computes_shuffled_index_witness :
    (((fun _ l => l.reverse : Nat → List Nat → List Nat) 1
        gapGeometry.materialIds).Perm gapGeometry.materialIds ∧
      gapGeometry.materialIds.Nodup ∧
      ∀ fsr, fsr < gapGeometry.numFSRs →
        gapGeometry.fsrMaterial fsr ∈ gapGeometry.materialIds) ∧
    (plot_materials_fsr_colors (fun _ l => l.reverse) gapGeometry =
        Except.ok ((List.range gapGeometry.numFSRs).map fun fsr =>
          ((fun _ l => l.reverse : Nat → List Nat → List Nat) 1
            gapGeometry.materialIds).indexOf
              (gapGeometry.fsrMaterial fsr)) ∧
      ∀ fsr, fsr < gapGeometry.numFSRs →
        ((fun _ l => l.reverse : Nat → List Nat → List Nat) 1
          gapGeometry.materialIds).indexOf (gapGeometry.fsrMaterial fsr) <
          gapGeometry.materialIds.length) :=
  ⟨⟨by decide, by decide, by decide⟩,
    plot_materials_computes_shuffled_index (fun _ l => l.reverse)
      gapGeometry (by decide) (by decide) (by decide)⟩

end Plotter
